import Mathlib

/-!
Verification of the deadpool-surrealdb connection-pool adapter.

The Rust sources embedded here are `src/surrealdb/src/lib.rs` (the
`Manager` with `create`, `recycle` and the private `auth` helper, and the
`Error` enum) and `src/surrealdb/src/config.rs` (`Credentials`, `Config`,
`ConfigBuilder`, `Config::create_pool`).

The SurrealDB client is modelled by a `World` oracle that decides, for
each remote call, whether it fails (returning the failure message) or
succeeds.  A connection is its remotely observable state: the signed-in
session and the selected namespace/database.  Every manager operation
additionally returns the trace of client calls it issued, so that claims
about which remote operations happen (and how often) are statable.
-/

namespace DeadpoolSurrealdb

/-- Authentication credentials, mirroring `Credentials` in config.rs. -/
inductive Credentials where
  | Root (user pass : String)
  | Namespace (user pass ns : String)
  | Database (user pass ns db : String)
deriving DecidableEq, Repr

/-- Pool configuration, mirroring `Config` in config.rs.  The `u64`/`u32`
numeric fields are modelled as `Nat`. -/
structure Config where
  host : String
  ns : String
  db : String
  creds : Credentials
  connect_timeout : Nat
  max_connections : Nat
  idle_timeout : Nat
deriving DecidableEq, Repr

/-- Default connect timeout in seconds (`default_connect_timeout`). -/
def default_connect_timeout : Nat := 5

/-- Default idle timeout in seconds (`default_idle_timeout`). -/
def default_idle_timeout : Nat := 60

/-- Default maximum pool size (`default_max_connections`). -/
def default_max_connections : Nat := 10

/-- The `Default` instance for `Config` in config.rs. -/
def Config.defaultConfig : Config :=
  ⟨"", "test", "test", Credentials.Root "root" "root",
    default_connect_timeout, default_max_connections, default_idle_timeout⟩

/-- `Config::new` from config.rs. -/
def Config.new (host ns db : String) (creds : Credentials) : Config :=
  ⟨host, ns, db, creds,
    default_connect_timeout, default_max_connections, default_idle_timeout⟩

/-- A duration, as produced by `Duration::from_secs`. -/
structure Duration where
  secs : Nat
deriving DecidableEq, Repr

/-- `Duration::from_secs`. -/
def Duration.from_secs (n : Nat) : Duration := ⟨n⟩

/-- `Config::connect_timeout()` accessor. -/
def Config.connectTimeoutDur (c : Config) : Duration := Duration.from_secs c.connect_timeout

/-- `Config::idle_timeout()` accessor. -/
def Config.idleTimeoutDur (c : Config) : Duration := Duration.from_secs c.idle_timeout

/-- The async runtimes supported by deadpool-runtime. -/
inductive Runtime where
  | Tokio1
  | AsyncStd1
deriving DecidableEq, Repr

/-- The pool error enum `Error` in lib.rs.  The payloads of `Surreal` and
`Build` are modelled by their display strings. -/
inductive Error where
  | Surreal (e : String)
  | Connection (msg : String)
  | Auth (msg : String)
  | Build (e : String)
deriving DecidableEq, Repr

/-- The `Display` rendering of `Error`, from the thiserror attributes in
lib.rs. -/
def Error.display : Error → String
  | .Surreal e => "SurrealDB error: " ++ e
  | .Connection m => "Connection error: " ++ m
  | .Auth m => "Authentication error: " ++ m
  | .Build e => "Build error: " ++ e

/-- The enum variant of an `Error`, used to state that two errors are of
the same or of distinct classes. -/
inductive ErrClass where
  | surreal
  | connection
  | auth
  | build
deriving DecidableEq, Repr

/-- Maps an error to its variant. -/
def Error.errClass : Error → ErrClass
  | .Surreal _ => .surreal
  | .Connection _ => .connection
  | .Auth _ => .auth
  | .Build _ => .build

/-- A sign-in request as handed to `db.signin`, mirroring the
`surrealdb::opt::auth::Root`/`Namespace`/`Database` structs built in
`Manager::auth`. -/
inductive SigninRequest where
  | Root (username password : String)
  | Namespace (username password ns : String)
  | Database (username password ns db : String)
deriving DecidableEq, Repr

/-- The remotely observable state of a connection: the signed-in session
(the request the remote side accepted) and the selected
namespace/database. -/
structure Conn where
  session : Option SigninRequest
  selected : Option (String × String)
deriving DecidableEq, Repr

/-- One client call issued against the SurrealDB engine. -/
inductive Op where
  | connect (host : String)
  | signin (r : SigninRequest)
  | useNsDb (ns db : String)
deriving DecidableEq, Repr

/-- The environment oracle: decides which client calls fail, and with
which message.  `none` means the call succeeds. -/
structure World where
  connectErr : String → Option String
  signinErr : Conn → SigninRequest → Option String
  useErr : Conn → String → String → Option String

/-- `surrealdb::engine::any::connect`: a fresh connection has no session
and no selection. -/
def connect (w : World) (host : String) : Except String Conn :=
  match w.connectErr host with
  | some e => Except.error e
  | none => Except.ok ⟨none, none⟩

/-- `db.signin(request)`: on success the session becomes the accepted
request. -/
def signin (w : World) (c : Conn) (r : SigninRequest) : Except String Conn :=
  match w.signinErr c r with
  | some e => Except.error e
  | none => Except.ok { c with session := some r }

/-- `db.use_ns(ns).use_db(db)`: on success the selection becomes
`(ns, db)`. -/
def use_ns_db (w : World) (c : Conn) (ns db : String) : Except String Conn :=
  match w.useErr c ns db with
  | some e => Except.error e
  | none => Except.ok { c with selected := some (ns, db) }

/-- Rust's `str::starts_with`, modelled as prefix-of on the character
sequences of the two strings (for UTF-8 strings byte-prefix and
character-prefix coincide).  Defined structurally so that concrete
instances evaluate. -/
def starts_with (s pre : String) : Bool := pre.data.isPrefixOf s.data

/-- The pool manager, mirroring `Manager` in lib.rs. -/
structure Manager where
  config : Config
deriving DecidableEq, Repr

/-- `Manager::from_config`. -/
def Manager.from_config (c : Config) : Manager := ⟨c⟩

/-- `Manager::auth` from lib.rs: dispatch `signin` on the credential
variant, wrapping failures as `Error::Auth` with the variant name, then
select the configured namespace/database, wrapping failures as
`Error::Connection`.  Returns the updated connection and the trace of
client calls issued on the success path. -/
def Manager.auth (m : Manager) (w : World) (c : Conn) :
    Except Error (Conn × List Op) :=
  let signedIn : Except Error (Conn × List Op) :=
    match m.config.creds with
    | Credentials.Root user pass =>
        match signin w c (SigninRequest.Root user pass) with
        | Except.error e => Except.error (Error.Auth ("Root auth failed: " ++ e))
        | Except.ok c1 => Except.ok (c1, [Op.signin (SigninRequest.Root user pass)])
    | Credentials.Namespace user pass ns =>
        match signin w c (SigninRequest.Namespace user pass ns) with
        | Except.error e => Except.error (Error.Auth ("Namespace auth failed: " ++ e))
        | Except.ok c1 => Except.ok (c1, [Op.signin (SigninRequest.Namespace user pass ns)])
    | Credentials.Database user pass ns db =>
        match signin w c (SigninRequest.Database user pass ns db) with
        | Except.error e => Except.error (Error.Auth ("Database auth failed: " ++ e))
        | Except.ok c1 => Except.ok (c1, [Op.signin (SigninRequest.Database user pass ns db)])
  match signedIn with
  | Except.error e => Except.error e
  | Except.ok (c1, tr) =>
      match use_ns_db w c1 m.config.ns m.config.db with
      | Except.error e => Except.error (Error.Connection ("Failed to set ns/db: " ++ e))
      | Except.ok c2 => Except.ok (c2, tr ++ [Op.useNsDb m.config.ns m.config.db])

/-- `Manager::create` from lib.rs: connect, skip `auth` when the host
starts with "mem://", then select the configured namespace/database. -/
def Manager.create (m : Manager) (w : World) : Except Error (Conn × List Op) :=
  match connect w m.config.host with
  | Except.error e => Except.error (Error.Connection ("Failed to connect: " ++ e))
  | Except.ok db =>
      let authed : Except Error (Conn × List Op) :=
        if !(starts_with m.config.host "mem://") then
          match m.auth w db with
          | Except.error e => Except.error e
          | Except.ok (c1, tr) => Except.ok (c1, [Op.connect m.config.host] ++ tr)
        else
          Except.ok (db, [Op.connect m.config.host])
      match authed with
      | Except.error e => Except.error e
      | Except.ok (c1, tr) =>
          match use_ns_db w c1 m.config.ns m.config.db with
          | Except.error e => Except.error (Error.Connection ("Failed to set ns/db: " ++ e))
          | Except.ok c2 => Except.ok (c2, tr ++ [Op.useNsDb m.config.ns m.config.db])

/-- Slot metrics handed to `recycle` by the pool (age, last-used time,
use count). -/
structure Metrics where
  age : Nat
  last_used : Nat
  recycle_count : Nat
deriving DecidableEq, Repr

/-- `deadpool::managed::RecycleError`. -/
inductive RecycleError where
  | Message (msg : String)
  | Backend (e : Error)
deriving DecidableEq, Repr

/-- `Manager::recycle` from lib.rs: skip the check when the host starts
with "mem://"; otherwise re-run `auth` against the existing connection,
wrapping failures into `RecycleError::Message`.  The metrics argument is
ignored, as in the source (`_: &managed::Metrics`).  Returns the
connection after the mutation `auth` applied plus the issued trace. -/
def Manager.recycle (m : Manager) (w : World) (conn : Conn) (_metrics : Metrics) :
    Except RecycleError (Conn × List Op) :=
  if !(starts_with m.config.host "mem://") then
    match m.auth w conn with
    | Except.error e =>
        Except.error (RecycleError.Message ("Connection check failed: " ++ e.display))
    | Except.ok (c1, tr) => Except.ok (c1, tr)
  else
    Except.ok (conn, [])

/-- The pool produced by `Config::create_pool`: the manager plus the
builder parameters that `create_pool` sets on `Pool::builder`. -/
structure Pool where
  manager : Manager
  max_size : Nat
  wait_timeout : Option Duration
  create_timeout : Option Duration
  recycle_timeout : Option Duration
  runtime : Option Runtime
deriving DecidableEq, Repr

/-- `Config::create_pool` from config.rs: max size from
`max_connections`, wait and create timeouts both from `connect_timeout`,
recycle timeout from `idle_timeout`. -/
def Config.create_pool (c : Config) (runtime : Option Runtime) : Except Error Pool :=
  Except.ok
    ⟨Manager.from_config c,
     c.max_connections,
     some (Duration.from_secs c.connect_timeout),
     some (Duration.from_secs c.connect_timeout),
     some (Duration.from_secs c.idle_timeout),
     runtime⟩

/-- Builder state, mirroring `ConfigBuilder` in config.rs. -/
structure ConfigBuilder where
  host : Option String
  ns : Option String
  db : Option String
  creds : Option Credentials
  connect_timeout : Option Nat
  max_connections : Option Nat
  idle_timeout : Option Nat
deriving DecidableEq, Repr

/-- `ConfigBuilder::new` / `ConfigBuilder::default`. -/
def ConfigBuilder.new : ConfigBuilder := ⟨none, none, none, none, none, none, none⟩

/-- `ConfigBuilder::build` from config.rs: `ok_or` on the four required
fields in source order, `unwrap_or_else(default)` on the numeric ones. -/
def ConfigBuilder.build (b : ConfigBuilder) : Except String Config :=
  match b.host with
  | none => Except.error "host is required"
  | some host =>
  match b.ns with
  | none => Except.error "namespace is required"
  | some ns =>
  match b.db with
  | none => Except.error "database is required"
  | some db =>
  match b.creds with
  | none => Except.error "credentials are required"
  | some creds =>
      Except.ok ⟨host, ns, db, creds,
        b.connect_timeout.getD default_connect_timeout,
        b.max_connections.getD default_max_connections,
        b.idle_timeout.getD default_idle_timeout⟩

/-- The sign-in request that `Manager::auth` builds from each credential
variant: exactly the fields of the active variant. -/
def Credentials.request : Credentials → SigninRequest
  | .Root u p => .Root u p
  | .Namespace u p ns => .Namespace u p ns
  | .Database u p ns db => .Database u p ns db

/-- The variant name used in the `Error::Auth` message of
`Manager::auth`. -/
def Credentials.variantName : Credentials → String
  | .Root .. => "Root"
  | .Namespace .. => "Namespace"
  | .Database .. => "Database"

/-- Modelled from the spec: the Bounded Pool's slot accounting.  The
pool core (deadpool's managed pool) is part of this repository but not
under src/, so its state is modelled from spec sections 4.3 and 5: a
count of connections being created, idle, and leased.  Each transition
below is one atomic action of one caller; arbitrary interleavings of
concurrent callers are arbitrary transition sequences. -/
structure PoolSt where
  creating : Nat
  idle : Nat
  leased : Nat
deriving DecidableEq, Repr

/-- The number of live connections: being created, idle, or leased. -/
def PoolSt.live (s : PoolSt) : Nat := s.creating + s.idle + s.leased

/-- Modelled from the spec: the atomic transitions of the Bounded Pool
with size limit `N`.  Creation is admitted only below the limit; an idle
connection may be handed out after a successful recycle, or destroyed
when recycle fails; a lease is eventually released. -/
inductive PoolStep (N : Nat) : PoolSt → PoolSt → Prop where
  | startCreate (s : PoolSt) : s.live < N →
      PoolStep N s ⟨s.creating + 1, s.idle, s.leased⟩
  | finishCreateLeased (s : PoolSt) : 0 < s.creating →
      PoolStep N s ⟨s.creating - 1, s.idle, s.leased + 1⟩
  | finishCreateIdle (s : PoolSt) : 0 < s.creating →
      PoolStep N s ⟨s.creating - 1, s.idle + 1, s.leased⟩
  | failCreate (s : PoolSt) : 0 < s.creating →
      PoolStep N s ⟨s.creating - 1, s.idle, s.leased⟩
  | acquireIdle (s : PoolSt) : 0 < s.idle →
      PoolStep N s ⟨s.creating, s.idle - 1, s.leased + 1⟩
  | destroyIdle (s : PoolSt) : 0 < s.idle →
      PoolStep N s ⟨s.creating, s.idle - 1, s.leased⟩
  | release (s : PoolSt) : 0 < s.leased →
      PoolStep N s ⟨s.creating, s.idle + 1, s.leased - 1⟩

/-- The pool states reachable from the empty pool. -/
inductive PoolReach (N : Nat) : PoolSt → Prop where
  | init : PoolReach N ⟨0, 0, 0⟩
  | step {s t : PoolSt} : PoolReach N s → PoolStep N s t → PoolReach N t

/-- A world in which every client call succeeds. -/
def allOkWorld : World := ⟨fun _ => none, fun _ _ => none, fun _ _ _ => none⟩

/-- A world in which opening the transport connection fails. -/
def connectFailWorld : World := ⟨fun _ => some "boom", fun _ _ => none, fun _ _ _ => none⟩

/-- A world in which every sign-in is rejected. -/
def signinFailWorld : World := ⟨fun _ => none, fun _ _ => some "denied", fun _ _ _ => none⟩

/-- A world in which namespace/database selection fails. -/
def selectFailWorld : World := ⟨fun _ => none, fun _ _ => none, fun _ _ _ => some "boom"⟩

/-- A concrete in-memory configuration. -/
def memConfig : Config := ⟨"mem://", "test", "test", Credentials.Root "root" "root", 5, 10, 60⟩

/-- A concrete networked configuration. -/
def wsConfig : Config :=
  ⟨"ws://localhost:8000", "test", "test", Credentials.Root "root" "root", 5, 10, 60⟩

/-- Concrete slot metrics. -/
def someMetrics : Metrics := ⟨100, 7, 3⟩

/-- A connection whose selected namespace/database has drifted away from
the configured one during a lease. -/
def driftedConn : Conn := ⟨some (SigninRequest.Root "root" "root"), some ("other", "otherdb")⟩

/-- Characterization of `Manager.auth`: one sign-in with exactly the
request built from the credential variant, then one selection of the
configured namespace/database, with the error wrapping of the source. -/
theorem Manager.auth_eq (m : Manager) (w : World) (c : Conn) :
    m.auth w c =
      match w.signinErr c m.config.creds.request with
      | some e =>
          Except.error (Error.Auth (m.config.creds.variantName ++ " auth failed: " ++ e))
      | none =>
          match w.useErr { c with session := some m.config.creds.request }
              m.config.ns m.config.db with
          | some e => Except.error (Error.Connection ("Failed to set ns/db: " ++ e))
          | none =>
              Except.ok
                ({ c with session := some m.config.creds.request,
                          selected := some (m.config.ns, m.config.db) },
                 [Op.signin m.config.creds.request,
                  Op.useNsDb m.config.ns m.config.db]) := by
  rcases m with ⟨⟨host, ns, db, creds, ct, mc, it⟩⟩
  cases creds <;>
    · simp only [Manager.auth, signin, use_ns_db, Credentials.request,
        Credentials.variantName]
      rcases hs : w.signinErr c _ with _ | e
      · simp only [hs]
        rcases hu : w.useErr _ _ _ with _ | e2 <;> simp [hu]
      · simp [hs]

/-- Characterization of `Manager.recycle`: in-memory hosts are exempt;
otherwise it is exactly the `Manager.auth` dispatch with its error
wrapped into `RecycleError::Message`. -/
theorem Manager.recycle_eq (m : Manager) (w : World) (conn : Conn) (mt : Metrics) :
    m.recycle w conn mt =
      if starts_with m.config.host "mem://" then Except.ok (conn, [])
      else
        match m.auth w conn with
        | Except.error e =>
            Except.error (RecycleError.Message ("Connection check failed: " ++ e.display))
        | Except.ok r => Except.ok r := by
  by_cases h : starts_with m.config.host "mem://" = true
  · simp [Manager.recycle, h]
  · simp only [Bool.not_eq_true] at h
    simp only [Manager.recycle, h, Bool.not_false, if_true, if_false, Bool.false_eq_true]
    rcases ha : m.auth w conn with e | ⟨c1, tr⟩ <;> simp [ha]

/-- Characterization of `Manager.create`: connect, then (for non-memory
hosts) the `Manager.auth` dispatch, then one more selection of the
configured namespace/database. -/
theorem Manager.create_eq (m : Manager) (w : World) :
    m.create w =
      match w.connectErr m.config.host with
      | some e => Except.error (Error.Connection ("Failed to connect: " ++ e))
      | none =>
        if starts_with m.config.host "mem://" then
          match w.useErr ⟨none, none⟩ m.config.ns m.config.db with
          | some e => Except.error (Error.Connection ("Failed to set ns/db: " ++ e))
          | none =>
              Except.ok (⟨none, some (m.config.ns, m.config.db)⟩,
                [Op.connect m.config.host, Op.useNsDb m.config.ns m.config.db])
        else
          match m.auth w ⟨none, none⟩ with
          | Except.error e => Except.error e
          | Except.ok (c1, tr) =>
              match w.useErr c1 m.config.ns m.config.db with
              | some e => Except.error (Error.Connection ("Failed to set ns/db: " ++ e))
              | none =>
                  Except.ok ({ c1 with selected := some (m.config.ns, m.config.db) },
                    ([Op.connect m.config.host] ++ tr) ++
                      [Op.useNsDb m.config.ns m.config.db]) := by
  simp only [Manager.create, connect]
  rcases hc : w.connectErr m.config.host with _ | e
  · simp only []
    by_cases h : starts_with m.config.host "mem://" = true
    · simp only [h, Bool.not_true, if_true, if_false]
      simp only [use_ns_db]
      rcases hu : w.useErr ⟨none, none⟩ m.config.ns m.config.db with _ | e2 <;> simp [hu]
    · simp only [Bool.not_eq_true] at h
      simp only [h, Bool.not_false, if_true, if_false, Bool.false_eq_true]
      rcases ha : m.auth w ⟨none, none⟩ with e | ⟨c1, tr⟩
      · simp [ha]
      · simp only [ha, use_ns_db]
        rcases hu : w.useErr c1 m.config.ns m.config.db with _ | e2 <;> simp [hu]
  · simp

/-- A successful `Manager.auth` leaves the connection in the canonical
state and its trace is exactly one sign-in with the credential request
followed by one selection. -/
theorem Manager.auth_ok_trace (m : Manager) (w : World) (c c2 : Conn) (tr : List Op)
    (h : m.auth w c = Except.ok (c2, tr)) :
    c2 = { c with session := some m.config.creds.request,
                  selected := some (m.config.ns, m.config.db) } ∧
    tr = [Op.signin m.config.creds.request, Op.useNsDb m.config.ns m.config.db] := by
  rw [Manager.auth_eq] at h
  split at h
  · simp at h
  · split at h
    · simp at h
    · simp only [Except.ok.injEq, Prod.mk.injEq] at h
      exact ⟨h.1.symm, h.2.symm⟩

/-- The trace of a successful `Manager.create` on a non-in-memory host:
connect, sign-in, and the namespace/database selection twice. -/
theorem Manager.create_ok_trace (m : Manager) (w : World) (c2 : Conn) (tr : List Op)
    (hmem : starts_with m.config.host "mem://" = false)
    (h : m.create w = Except.ok (c2, tr)) :
    tr = [Op.connect m.config.host, Op.signin m.config.creds.request,
          Op.useNsDb m.config.ns m.config.db, Op.useNsDb m.config.ns m.config.db] := by
  rw [Manager.create_eq] at h
  split at h
  · simp at h
  · rw [if_neg (by simp [hmem])] at h
    rcases ha : m.auth w ⟨none, none⟩ with e | ⟨c1, tr1⟩
    · rw [ha] at h; simp at h
    · rw [ha] at h
      obtain ⟨-, rfl⟩ := Manager.auth_ok_trace m w ⟨none, none⟩ c1 tr1 ha
      simp only [] at h
      split at h
      · simp at h
      · simp only [Except.ok.injEq, Prod.mk.injEq] at h
        rw [← h.2]
        rfl

/-- Claim C2: the authentication dispatch signs in with exactly the
fields of the active credential variant (the request passed to the
client is the variant's constructor applied to its own fields), and any
sign-in failure yields an `Error::Auth` carrying the variant name and
the underlying cause. -/
theorem c2_auth_variant_fields_and_error (m : Manager) (w : World) (c : Conn) :
    (∀ e, w.signinErr c m.config.creds.request = some e →
        m.auth w c =
          Except.error (Error.Auth (m.config.creds.variantName ++ " auth failed: " ++ e)))
  ∧ (∀ c2 tr, m.auth w c = Except.ok (c2, tr) →
        c2.session = some m.config.creds.request ∧
        tr = [Op.signin m.config.creds.request, Op.useNsDb m.config.ns m.config.db]) := by
  constructor
  · intro e he
    rw [Manager.auth_eq, he]
  · intro c2 tr hok
    obtain ⟨rfl, rfl⟩ := Manager.auth_ok_trace m w c c2 tr hok
    exact ⟨rfl, rfl⟩

/-- Witness for C2 at a concrete manager: a rejected Root sign-in
produces the documented Auth error, and a successful dispatch signs in
with exactly the configured Root fields. -/
theorem c2_witness :
    ((Manager.from_config wsConfig).auth signinFailWorld ⟨none, none⟩ =
      Except.error (Error.Auth (wsConfig.creds.variantName ++ " auth failed: " ++ "denied"))) ∧
    ((⟨some (SigninRequest.Root "root" "root"), some ("test", "test")⟩ : Conn).session =
        some wsConfig.creds.request ∧
      ([Op.signin (SigninRequest.Root "root" "root"), Op.useNsDb "test" "test"] : List Op) =
        [Op.signin wsConfig.creds.request, Op.useNsDb wsConfig.ns wsConfig.db]) :=
  ⟨(c2_auth_variant_fields_and_error (Manager.from_config wsConfig) signinFailWorld
      ⟨none, none⟩).1 "denied" rfl,
   (c2_auth_variant_fields_and_error (Manager.from_config wsConfig) allOkWorld
      ⟨none, none⟩).2 _ _ rfl⟩

/-- Claim C5: for non-in-memory hosts, recycle performs exactly the same
authentication dispatch `Manager.auth` as create does; it succeeds with
exactly the dispatch's result, and it fails exactly when the dispatch
fails, wrapping the failure into a `RecycleError::Message` with a
descriptive message. -/
theorem c5_recycle_is_auth_dispatch (m : Manager) (w : World) (conn : Conn) (mt : Metrics)
    (h : starts_with m.config.host "mem://" = false) :
    (∀ r, m.recycle w conn mt = Except.ok r ↔ m.auth w conn = Except.ok r)
  ∧ (∀ e, m.auth w conn = Except.error e →
        m.recycle w conn mt =
          Except.error (RecycleError.Message ("Connection check failed: " ++ e.display))) := by
  constructor
  · intro r
    rw [Manager.recycle_eq, if_neg (by simp [h])]
    rcases ha : m.auth w conn with e | r2 <;> simp [ha]
  · intro e he
    rw [Manager.recycle_eq, if_neg (by simp [h]), he]

/-- Witness for C5 at a concrete manager: with every sign-in rejected,
recycle fails with the wrapped Auth failure of the dispatch. -/
theorem c5_witness :
    (Manager.from_config wsConfig).recycle signinFailWorld driftedConn someMetrics =
      Except.error (RecycleError.Message
        ("Connection check failed: " ++ (Error.Auth "Root auth failed: denied").display)) :=
  (c5_recycle_is_auth_dispatch (Manager.from_config wsConfig) signinFailWorld driftedConn
      someMetrics (by decide)).2 (Error.Auth "Root auth failed: denied") rfl

/-- Claim C9: on a non-in-memory host, a successful create issues the
namespace/database selection twice — once inside the authentication
helper immediately after sign-in and once again after the helper
returns. -/
theorem c9_create_selects_twice (m : Manager) (w : World)
    (h : starts_with m.config.host "mem://" = false) :
    ∀ c tr, m.create w = Except.ok (c, tr) →
      tr = [Op.connect m.config.host, Op.signin m.config.creds.request,
            Op.useNsDb m.config.ns m.config.db, Op.useNsDb m.config.ns m.config.db] ∧
      tr.count (Op.useNsDb m.config.ns m.config.db) = 2 := by
  intro c tr hok
  have htr := Manager.create_ok_trace m w c tr h hok
  refine ⟨htr, ?_⟩
  rw [htr]
  simp [List.count_cons]

/-- Witness for C9 at a concrete manager: a fully successful create
against the networked config issues exactly the four-call trace with the
selection twice. -/
theorem c9_witness :
    ([Op.connect "ws://localhost:8000", Op.signin (SigninRequest.Root "root" "root"),
        Op.useNsDb "test" "test", Op.useNsDb "test" "test"] : List Op) =
      [Op.connect wsConfig.host, Op.signin wsConfig.creds.request,
        Op.useNsDb wsConfig.ns wsConfig.db, Op.useNsDb wsConfig.ns wsConfig.db] ∧
    ([Op.connect "ws://localhost:8000", Op.signin (SigninRequest.Root "root" "root"),
        Op.useNsDb "test" "test", Op.useNsDb "test" "test"] : List Op).count
      (Op.useNsDb wsConfig.ns wsConfig.db) = 2 :=
  c9_create_selects_twice (Manager.from_config wsConfig) allOkWorld (by decide)
    ⟨some (SigninRequest.Root "root" "root"), some ("test", "test")⟩
    [Op.connect "ws://localhost:8000", Op.signin (SigninRequest.Root "root" "root"),
     Op.useNsDb "test" "test", Op.useNsDb "test" "test"] rfl

/-- Claim C10: the result of recycle does not depend on the metrics
argument — for any two metrics values the result is identical, since the
connection's age, last-used time, and use count are never consulted. -/
theorem c10_recycle_ignores_metrics (m : Manager) (w : World) (conn : Conn)
    (m1 m2 : Metrics) : m.recycle w conn m1 = m.recycle w conn m2 := rfl

/-- Claim C1: for an in-memory host, create skips the authentication
step entirely (no sign-in appears in any successful trace and no Auth
error can arise) and recycle returns Ok without performing any remote
call and without touching the connection; for every other host, recycle
is exactly the credential-variant dispatch `Manager.auth`, and create
(after a successful connect) runs that same dispatch: a dispatch failure
is create's failure, and every successful create has signed in with the
configured credential request. -/
theorem c1_mem_exempt_from_auth (m : Manager) (w : World) :
    (starts_with m.config.host "mem://" = true →
      ((∀ c tr r, m.create w = Except.ok (c, tr) → Op.signin r ∉ tr) ∧
       (∀ msg, m.create w ≠ Except.error (Error.Auth msg)) ∧
       (∀ conn mt, m.recycle w conn mt = Except.ok (conn, []))))
  ∧ (starts_with m.config.host "mem://" = false →
      ((∀ conn mt, m.recycle w conn mt =
          match m.auth w conn with
          | Except.error e =>
              Except.error (RecycleError.Message ("Connection check failed: " ++ e.display))
          | Except.ok r => Except.ok r) ∧
       (w.connectErr m.config.host = none →
          ((∀ e, m.auth w ⟨none, none⟩ = Except.error e → m.create w = Except.error e) ∧
           (∀ c tr, m.create w = Except.ok (c, tr) →
              Op.signin m.config.creds.request ∈ tr))))) := by
  constructor
  · intro h
    refine ⟨?_, ?_, ?_⟩
    · intro c tr r hok
      rw [Manager.create_eq] at hok
      split at hok
      · simp at hok
      · rw [if_pos h] at hok
        split at hok
        · simp at hok
        · simp only [Except.ok.injEq, Prod.mk.injEq] at hok
          rw [← hok.2]
          simp
    · intro msg hok
      rw [Manager.create_eq] at hok
      split at hok
      · simp at hok
      · rw [if_pos h] at hok
        split at hok <;> simp at hok
    · intro conn mt
      rw [Manager.recycle_eq, if_pos h]
  · intro h
    constructor
    · intro conn mt
      rw [Manager.recycle_eq, if_neg (by simp [h])]
    · intro hc
      constructor
      · intro e ha
        rw [Manager.create_eq]
        rw [hc]
        simp only []
        rw [if_neg (by simp [h]), ha]
      · intro c tr hok
        have htr := Manager.create_ok_trace m w c tr h hok
        rw [htr]
        simp

/-- Witness for C1 at concrete configurations: the in-memory manager
recycles any connection unchanged without remote calls, and the
networked manager's recycle is the auth dispatch. -/
theorem c1_witness :
    ((Manager.from_config memConfig).recycle allOkWorld driftedConn someMetrics =
      Except.ok (driftedConn, [])) ∧
    ((Manager.from_config wsConfig).recycle allOkWorld driftedConn someMetrics =
      match (Manager.from_config wsConfig).auth allOkWorld driftedConn with
      | Except.error e =>
          Except.error (RecycleError.Message ("Connection check failed: " ++ e.display))
      | Except.ok r => Except.ok r) :=
  ⟨((c1_mem_exempt_from_auth (Manager.from_config memConfig) allOkWorld).1
      (by decide)).2.2 driftedConn someMetrics,
   ((c1_mem_exempt_from_auth (Manager.from_config wsConfig) allOkWorld).2
      (by decide)).1 driftedConn someMetrics⟩

/-- Counterexample to C3: the wait and create budgets are not
independently configurable — `create_pool` derives both from
`connect_timeout`, so no two configurations whatsoever can make the wait
timeout differ while the create timeout stays the same. -/
theorem c3_counterexample :
    ¬ ∃ (c1 c2 : Config) (rt1 rt2 : Option Runtime) (p1 p2 : Pool),
        c1.create_pool rt1 = Except.ok p1 ∧ c2.create_pool rt2 = Except.ok p2 ∧
        p1.wait_timeout ≠ p2.wait_timeout ∧ p1.create_timeout = p2.create_timeout := by
  rintro ⟨c1, c2, rt1, rt2, p1, p2, h1, h2, hw, hc⟩
  simp only [Config.create_pool, Except.ok.injEq] at h1 h2
  subst h1
  subst h2
  exact hw hc

/-- Amended C3: the recycle timeout is driven by `idle_timeout` alone,
but the wait and create timeouts are both driven by `connect_timeout`
and therefore always equal; configurations agreeing on everything except
possibly `idle_timeout` yield pools with identical wait and create
timeouts whose recycle timeouts differ exactly when the idle timeouts
do. -/
theorem c3_amended_timeout_wiring (c1 c2 : Config) (rt : Option Runtime) (p1 p2 : Pool)
    (h1 : c1.create_pool rt = Except.ok p1) (h2 : c2.create_pool rt = Except.ok p2) :
    (p1.wait_timeout = some (Duration.from_secs c1.connect_timeout) ∧
     p1.create_timeout = some (Duration.from_secs c1.connect_timeout) ∧
     p1.recycle_timeout = some (Duration.from_secs c1.idle_timeout) ∧
     p1.wait_timeout = p1.create_timeout) ∧
    (c1.connect_timeout = c2.connect_timeout →
      (p1.wait_timeout = p2.wait_timeout ∧ p1.create_timeout = p2.create_timeout ∧
       (p1.recycle_timeout = p2.recycle_timeout ↔ c1.idle_timeout = c2.idle_timeout))) := by
  simp only [Config.create_pool, Except.ok.injEq] at h1 h2
  subst h1
  subst h2
  refine ⟨⟨rfl, rfl, rfl, rfl⟩, ?_⟩
  intro hct
  refine ⟨by rw [hct], by rw [hct], ?_⟩
  simp [Duration.from_secs]

/-- The configuration equal to `wsConfig` except for its idle timeout. -/
def wsConfigIdle61 : Config := { wsConfig with idle_timeout := 61 }

/-- The pool built from `wsConfig`. -/
def poolA : Pool :=
  ⟨Manager.from_config wsConfig, 10, some ⟨5⟩, some ⟨5⟩, some ⟨60⟩, none⟩

/-- The pool built from `wsConfigIdle61`. -/
def poolB : Pool :=
  ⟨Manager.from_config wsConfigIdle61, 10, some ⟨5⟩, some ⟨5⟩, some ⟨61⟩, none⟩

/-- Witness for the amended C3 at two concrete configurations differing
only in the idle timeout: wait and create timeouts agree, and the
recycle timeouts differ exactly as the idle timeouts do. -/
theorem c3_witness :
    (poolA.wait_timeout = some (Duration.from_secs wsConfig.connect_timeout) ∧
     poolA.create_timeout = some (Duration.from_secs wsConfig.connect_timeout) ∧
     poolA.recycle_timeout = some (Duration.from_secs wsConfig.idle_timeout) ∧
     poolA.wait_timeout = poolA.create_timeout) ∧
    (poolA.wait_timeout = poolB.wait_timeout ∧ poolA.create_timeout = poolB.create_timeout ∧
     (poolA.recycle_timeout = poolB.recycle_timeout ↔
        wsConfig.idle_timeout = wsConfigIdle61.idle_timeout)) :=
  ⟨(c3_amended_timeout_wiring wsConfig wsConfigIdle61 none poolA poolB rfl rfl).1,
   (c3_amended_timeout_wiring wsConfig wsConfigIdle61 none poolA poolB rfl rfl).2 rfl⟩

/-- Counterexample to C4: a transport-level connect failure and a
namespace/database selection failure after successful authentication are
reported through the same `Error::Connection` class — the source's error
enum has no separate Connect variant. -/
theorem c4_counterexample :
    (Manager.from_config wsConfig).create connectFailWorld =
        Except.error (Error.Connection ("Failed to connect: " ++ "boom")) ∧
    (Manager.from_config wsConfig).create selectFailWorld =
        Except.error (Error.Connection ("Failed to set ns/db: " ++ "boom")) ∧
    (Error.Connection ("Failed to connect: " ++ "boom")).errClass =
        (Error.Connection ("Failed to set ns/db: " ++ "boom")).errClass :=
  ⟨rfl, rfl, rfl⟩

/-- Amended C4: transport failure and selection failure are both
reported in the `Error::Connection` class, distinguished only by their
message prefixes ("Failed to connect: " versus "Failed to set ns/db: ");
the class that is distinct from both is `Error::Auth` for sign-in
failures. -/
theorem c4_amended_error_classes (m : Manager) (w : World)
    (hmem : starts_with m.config.host "mem://" = false) :
    (∀ e, w.connectErr m.config.host = some e →
        m.create w = Except.error (Error.Connection ("Failed to connect: " ++ e)))
  ∧ (∀ e, w.connectErr m.config.host = none →
        w.signinErr ⟨none, none⟩ m.config.creds.request = none →
        w.useErr ⟨some m.config.creds.request, none⟩ m.config.ns m.config.db = some e →
        m.create w = Except.error (Error.Connection ("Failed to set ns/db: " ++ e)))
  ∧ (∀ m1 m2, (Error.Connection m1).errClass = (Error.Connection m2).errClass)
  ∧ (∀ m1 m2, (Error.Connection m1).errClass ≠ (Error.Auth m2).errClass) := by
  refine ⟨?_, ?_, fun m1 m2 => rfl, fun m1 m2 h => by simp [Error.errClass] at h⟩
  · intro e he
    rw [Manager.create_eq, he]
  · intro e hc hs hu
    rw [Manager.create_eq, hc]
    simp only []
    rw [if_neg (by simp [hmem]), Manager.auth_eq, hs]
    simp only []
    rw [hu]

/-- Witness for the amended C4 at a concrete manager: a failing
transport yields the Connection-class connect error, and the Connection
class is distinct from the Auth class. -/
theorem c4_witness :
    ((Manager.from_config wsConfig).create connectFailWorld =
        Except.error (Error.Connection ("Failed to connect: " ++ "boom"))) ∧
    ((Error.Connection "x").errClass ≠ (Error.Auth "y").errClass) :=
  ⟨(c4_amended_error_classes (Manager.from_config wsConfig) connectFailWorld
      (by decide)).1 "boom" rfl,
   (c4_amended_error_classes (Manager.from_config wsConfig) connectFailWorld
      (by decide)).2.2.2 "x" "y"⟩

/-- Counterexample to C8: recycling a connection whose selected
namespace/database drifted during the lease succeeds but re-selects the
configured namespace/database, altering the connection's observable
state. -/
theorem c8_counterexample :
    (Manager.from_config wsConfig).recycle allOkWorld driftedConn someMetrics =
      Except.ok
        (⟨some (SigninRequest.Root "root" "root"), some ("test", "test")⟩,
         [Op.signin (SigninRequest.Root "root" "root"), Op.useNsDb "test" "test"]) ∧
    (⟨some (SigninRequest.Root "root" "root"), some ("test", "test")⟩ : Conn) ≠ driftedConn :=
  ⟨rfl, by decide⟩

/-- Amended C8: on an in-memory host a successful recycle leaves the
connection unchanged; on any other host a successful recycle re-issues
sign-in and selection, leaving the connection in the canonical
configured state — so it is unchanged exactly when it already was in
that state. -/
theorem c8_amended_recycle_state (m : Manager) (w : World) (conn : Conn) (mt : Metrics) :
    (starts_with m.config.host "mem://" = true →
        m.recycle w conn mt = Except.ok (conn, []))
  ∧ (starts_with m.config.host "mem://" = false →
        ∀ c2 tr, m.recycle w conn mt = Except.ok (c2, tr) →
          c2 = { conn with session := some m.config.creds.request,
                           selected := some (m.config.ns, m.config.db) } ∧
          (c2 = conn ↔
            conn = { conn with session := some m.config.creds.request,
                               selected := some (m.config.ns, m.config.db) })) := by
  constructor
  · intro h
    rw [Manager.recycle_eq, if_pos h]
  · intro h c2 tr hok
    rw [Manager.recycle_eq, if_neg (by simp [h])] at hok
    rcases ha : m.auth w conn with e | ⟨c1, tr1⟩
    · rw [ha] at hok; simp at hok
    · rw [ha] at hok
      simp only [Except.ok.injEq, Prod.mk.injEq] at hok
      obtain ⟨hc, -⟩ := hok
      obtain ⟨hcanon, -⟩ := Manager.auth_ok_trace m w conn c1 tr1 ha
      subst hc
      subst hcanon
      exact ⟨rfl, ⟨fun he => he.symm, fun he => he.symm⟩⟩

/-- Witness for the amended C8 at concrete managers: the in-memory
recycle leaves the drifted connection untouched, while the networked
recycle moves it to the canonical configured state. -/
theorem c8_witness :
    ((Manager.from_config memConfig).recycle allOkWorld driftedConn someMetrics =
      Except.ok (driftedConn, [])) ∧
    ((⟨some (SigninRequest.Root "root" "root"), some ("test", "test")⟩ : Conn) =
      { driftedConn with session := some wsConfig.creds.request,
                         selected := some (wsConfig.ns, wsConfig.db) }) :=
  ⟨(c8_amended_recycle_state (Manager.from_config memConfig) allOkWorld driftedConn
      someMetrics).1 (by decide),
   ((c8_amended_recycle_state (Manager.from_config wsConfig) allOkWorld driftedConn
      someMetrics).2 (by decide)
      ⟨some (SigninRequest.Root "root" "root"), some ("test", "test")⟩
      [Op.signin (SigninRequest.Root "root" "root"), Op.useNsDb "test" "test"] rfl).1⟩

/-- Claim C7: the builder's build succeeds exactly when host, namespace,
database and credentials have all been set, failing with the descriptive
error of the first missing field otherwise; on success any unspecified
numeric field takes its documented default (connect-timeout 5,
max-connections 10, idle/recycle-timeout 60). -/
theorem c7_builder_build (b : ConfigBuilder) :
    (b.build.isOk = true ↔
      (b.host.isSome = true ∧ b.ns.isSome = true ∧ b.db.isSome = true ∧
        b.creds.isSome = true))
  ∧ (∀ c, b.build = Except.ok c →
      (b.connect_timeout = none → c.connect_timeout = default_connect_timeout) ∧
      (b.max_connections = none → c.max_connections = default_max_connections) ∧
      (b.idle_timeout = none → c.idle_timeout = default_idle_timeout))
  ∧ (b.host = none → b.build = Except.error "host is required")
  ∧ (b.host.isSome = true → b.ns = none → b.build = Except.error "namespace is required")
  ∧ (b.host.isSome = true → b.ns.isSome = true → b.db = none →
      b.build = Except.error "database is required")
  ∧ (b.host.isSome = true → b.ns.isSome = true → b.db.isSome = true → b.creds = none →
      b.build = Except.error "credentials are required") := by
  obtain ⟨ho, no, dbo, co, ct, mc, it⟩ := b
  rcases ho with _ | h1 <;> rcases no with _ | n1 <;> rcases dbo with _ | d1 <;>
    rcases co with _ | cr1 <;>
    simp [ConfigBuilder.build, Except.isOk, Except.toBool] <;>
    · refine ⟨?_, ?_, ?_⟩ <;> rintro rfl <;> rfl

/-- A builder with all required fields set and no numeric field. -/
def builderAllSet : ConfigBuilder :=
  ⟨some "mem://", some "a", some "b", some (Credentials.Root "u" "p"), none, none, none⟩

/-- Witness for C7 at concrete builders: the fully-required builder
builds successfully and the empty builder fails with the host error. -/
theorem c7_witness :
    builderAllSet.build.isOk = true ∧
    ConfigBuilder.new.build = Except.error "host is required" :=
  ⟨(c7_builder_build builderAllSet).1.mpr ⟨rfl, rfl, rfl, rfl⟩,
   (c7_builder_build ConfigBuilder.new).2.2.1 rfl⟩

/-- Claim C6 (the pool core is modelled from the spec, since deadpool's
bounded pool is part of this repository but not under src/): in every
pool state reachable by any interleaving of caller transitions, at most
N connections are live simultaneously. -/
theorem c6_pool_bounded (N : Nat) (s : PoolSt) (h : PoolReach N s) : s.live ≤ N := by
  induction h with
  | init => simp [PoolSt.live]
  | step hr hs ih =>
    cases hs <;> simp only [PoolSt.live] at * <;> omega

/-- Witness for C6: the state reached by admitting one creation into an
empty pool of size one respects the bound. -/
theorem c6_witness : (⟨1, 0, 0⟩ : PoolSt).live ≤ 1 :=
  c6_pool_bounded 1 ⟨1, 0, 0⟩
    (PoolReach.step PoolReach.init (PoolStep.startCreate ⟨0, 0, 0⟩ (by decide)))

end DeadpoolSurrealdb
